import Mathlib

/-!
# Verification of `figs.py` (`contact_plot_PF00014`)

Shallow embedding of the single plotting routine in `src/figs.py`.  The
routine takes three lists of integer pairs (contacts), builds a styling
dictionary `pprops`, converts each list to a numpy array, extracts the two
transposed rows of each array shifted by `+1`, and hands six coordinate
sub-lists to a scatter call; it then draws a three-point legend and three
text labels.

Modelling decisions:
* A Python list of 2-tuples of ints is a `List (Int × Int)`.
* `np.array(l)` copies the data; for a non-empty list of pairs the result is
  a 2-D array whose transpose has two rows, and `arr.T[k]` is the list of
  k-th components.  For the empty list `np.array([])` is a 1-D array of
  length 0, so `arr.T[0]` raises `IndexError`; we model this fallible
  row access with `Option`.
* The observable effect of the function is the sequence of calls it makes to
  the plotting layer (`mp.plot`, `mp.scatter`, `ax.text`), recorded in
  `RenderOutput`; an uncaught exception is `none`.
-/

/-- Module-level color constant `C_CONTACT` (figs.py line 7). -/
def C_CONTACT : String := "#f0f0f0"

/-- Module-level color constant `C_TRUEPOS` (figs.py line 8). -/
def C_TRUEPOS : String := "#fd8d3c"

/-- Module-level color constant `C_FALSEPOS` (figs.py line 9). -/
def C_FALSEPOS : String := "#6baed6"

/-- The `plotprops` sub-dictionary of `pprops` (figs.py line 26). -/
structure MarkerProps where
  lw : Nat
  s : Nat
  marker : String
  clip_on : Bool
deriving DecidableEq, Repr

/-- The styling dictionary `pprops` built at figs.py lines 19-27. -/
structure PProps where
  colors : List String
  xlim : List Int
  ylim : List Int
  xticks : List Int
  yticks : List Int
  xlabel : String
  ylabel : String
  plotprops : MarkerProps
  theme : String
deriving DecidableEq, Repr

/-- The literal contents of the `pprops` dictionary (figs.py lines 19-27):
built afresh on every call, but from constants only. -/
def pprops : PProps :=
  { colors := [C_CONTACT, C_CONTACT, C_TRUEPOS, C_TRUEPOS, C_FALSEPOS, C_FALSEPOS]
  , xlim := [1, 55]
  , ylim := [1, 55]
  , xticks := [0, 10, 20, 30, 40, 50, 55]
  , yticks := [0, 10, 20, 30, 40, 50, 55]
  , xlabel := "PF00014 sites"
  , ylabel := "PF00014 sites"
  , plotprops := { lw := 0, s := 25, marker := "o", clip_on := false }
  , theme := "boxed" }

/-- One scatter-style call to the plotting layer: coordinate sub-lists `x`
and `y` plus the keyword options (`**pprops`). -/
structure ScatterCall where
  x : List (List Int)
  y : List (List Int)
  props : PProps
deriving DecidableEq, Repr

/-- One `ax.text(x, y, text, ha=..., va=..., **mp.def_labelprops)` call. -/
structure TextCall where
  x : Int
  y : Int
  text : String
  ha : String
  va : String
deriving DecidableEq, Repr

/-- Everything `contact_plot_PF00014` hands to the plotting layer when it
runs to completion: the main scatter call (figs.py line 36), the legend
scatter call (line 39) and the three label calls (lines 40-42). -/
structure RenderOutput where
  mainScatter : ScatterCall
  legendScatter : ScatterCall
  texts : List TextCall
deriving DecidableEq, Repr

/-- `np.array(l)` (figs.py lines 29-31): a fresh array holding a copy of the
caller's data; we keep the row contents.  The original list object is not
referenced again after this copy. -/
def np_array (l : List (Int × Int)) : List (Int × Int) := l

/-- Component selector for a transposed row: row 0 of `arr.T` holds the
first components, row 1 the second components. -/
def T_col (k : Fin 2) (p : Int × Int) : Int :=
  if k = 0 then p.1 else p.2

/-- `arr.T[k]` for `arr = np.array(l)` (figs.py lines 33-34): for non-empty
`l` the 2-D array's transpose has two rows and row `k` is the list of k-th
components; for empty `l` the array is 1-D of length 0, its transpose too,
and indexing row 0 (or 1) raises `IndexError`, modelled as `none`. -/
def T_row (l : List (Int × Int)) (k : Fin 2) : Option (List Int) :=
  if l = [] then none else some (l.map (T_col k))

/-- Elementwise `+ 1` on a coordinate row (the `+1` in figs.py lines 33-34,
converting 0-based indices to 1-based display coordinates). -/
def addOne (v : List Int) : List Int := v.map (fun n => n + 1)

/-- The legend scatter call (figs.py lines 38-39): `pprops['colors']` is
reassigned to the three category colors, then
`mp.scatter(ax=ax, x=[[56],[56],[56]], y=[[52],[48],[44]], **pprops)`. -/
def legendCall : ScatterCall :=
  { x := [[56], [56], [56]]
  , y := [[52], [48], [44]]
  , props := { pprops with colors := [C_CONTACT, C_TRUEPOS, C_FALSEPOS] } }

/-- The three `ax.text` label calls (figs.py lines 40-42). -/
def legendTexts : List TextCall :=
  [ { x := 57, y := 52, text := "Other contacts", ha := "left", va := "center" }
  , { x := 57, y := 48, text := "True positives", ha := "left", va := "center" }
  , { x := 57, y := 44, text := "False positives", ha := "left", va := "center" } ]

/-- `contact_plot_PF00014(other_contacts, true_positives, false_positives)`
(figs.py lines 14-44).  Builds `pprops`, copies the three inputs into numpy
arrays, extracts the shifted transposed rows (which raises `IndexError` when
a list is empty, giving `none`), and records the main scatter call, the
legend scatter call and the label calls. -/
def contact_plot_PF00014 (other_contacts true_positives false_positives :
    List (Int × Int)) : Option RenderOutput :=
  let oc := np_array other_contacts
  let tp := np_array true_positives
  let fp := np_array false_positives
  match T_row oc 0, T_row oc 1, T_row tp 0, T_row tp 1, T_row fp 0, T_row fp 1 with
  | some oc0, some oc1, some tp0, some tp1, some fp0, some fp1 =>
      some
        { mainScatter :=
            { x := [addOne oc0, addOne oc1, addOne tp0, addOne tp1,
                    addOne fp0, addOne fp1]
            , y := [addOne oc1, addOne oc0, addOne tp1, addOne tp0,
                    addOne fp1, addOne fp0]
            , props := pprops }
        , legendScatter := legendCall
        , texts := legendTexts }
  | _, _, _, _, _, _ => none

/-- The k-th category list as passed to the function: background contacts,
then true positives, then false positives. -/
def catList (a b c : List (Int × Int)) (k : Fin 3) : List (Int × Int) :=
  if k.val = 0 then a else if k.val = 1 then b else c

/-- The display color of the k-th category. -/
def catColor (k : Fin 3) : String :=
  if k.val = 0 then C_CONTACT else if k.val = 1 then C_TRUEPOS else C_FALSEPOS

/-- Forward display points of a category: pair `(i, j)` shown at
`(i+1, j+1)`. -/
def fwdPoints (l : List (Int × Int)) : List (Int × Int) :=
  l.map (fun p => (p.1 + 1, p.2 + 1))

/-- Mirrored display points of a category: pair `(i, j)` shown at
`(j+1, i+1)`. -/
def revPoints (l : List (Int × Int)) : List (Int × Int) :=
  l.map (fun p => (p.2 + 1, p.1 + 1))

/-- The display points contributed by category `k` in a render output:
sub-lists `2k` and `2k+1` of the main scatter call, with `x` and `y`
entries paired up. -/
def categoryPoints (out : RenderOutput) (k : Fin 3) : List (Int × Int) :=
  (out.mainScatter.x.getD (2 * k.val) []).zip (out.mainScatter.y.getD (2 * k.val) []) ++
  (out.mainScatter.x.getD (2 * k.val + 1) []).zip (out.mainScatter.y.getD (2 * k.val + 1) [])

/-- The render output produced on the success path (all three lists
non-empty), as a standalone value; `contact_plot_eq_some` shows the
function produces exactly this. -/
def renderOf (a b c : List (Int × Int)) : RenderOutput :=
  { mainScatter :=
      { x := [addOne (a.map (T_col 0)), addOne (a.map (T_col 1)),
              addOne (b.map (T_col 0)), addOne (b.map (T_col 1)),
              addOne (c.map (T_col 0)), addOne (c.map (T_col 1))]
      , y := [addOne (a.map (T_col 1)), addOne (a.map (T_col 0)),
              addOne (b.map (T_col 1)), addOne (b.map (T_col 0)),
              addOne (c.map (T_col 1)), addOne (c.map (T_col 0))]
      , props := pprops }
  , legendScatter := legendCall
  , texts := legendTexts }

theorem T_row_of_ne (l : List (Int × Int)) (k : Fin 2) (h : l ≠ []) :
    T_row l k = some (l.map (T_col k)) := if_neg h

/-- On the success path the output is fully determined by the three inputs. -/
theorem contact_plot_eq_some (a b c : List (Int × Int))
    (ha : a ≠ []) (hb : b ≠ []) (hc : c ≠ []) :
    contact_plot_PF00014 a b c = some (renderOf a b c) := by
  unfold contact_plot_PF00014 np_array renderOf
  simp only [T_row_of_ne a 0 ha, T_row_of_ne a 1 ha, T_row_of_ne b 0 hb,
      T_row_of_ne b 1 hb, T_row_of_ne c 0 hc, T_row_of_ne c 1 hc]

/-- As soon as one of the three lists is empty, the corresponding
`arr.T[0]` raises and the call aborts with nothing rendered. -/
theorem contact_plot_none_of_empty (a b c : List (Int × Int))
    (h : a = [] ∨ b = [] ∨ c = []) :
    contact_plot_PF00014 a b c = none := by
  rcases eq_or_ne a [] with ha | ha
  · subst ha; rfl
  rcases eq_or_ne b [] with hb | hb
  · subst hb
    unfold contact_plot_PF00014 np_array
    simp only [T_row_of_ne a 0 ha, T_row_of_ne a 1 ha]
    rfl
  rcases h with h | h | h
  · exact absurd h ha
  · exact absurd h hb
  · subst h
    unfold contact_plot_PF00014 np_array
    simp only [T_row_of_ne a 0 ha, T_row_of_ne a 1 ha, T_row_of_ne b 0 hb,
        T_row_of_ne b 1 hb]
    rfl

/-- Inversion: a successful call forces all three lists non-empty and pins
the output down to `renderOf`. -/
theorem contact_plot_some_inv (a b c : List (Int × Int)) (out : RenderOutput)
    (h : contact_plot_PF00014 a b c = some out) :
    a ≠ [] ∧ b ≠ [] ∧ c ≠ [] ∧ out = renderOf a b c := by
  rcases eq_or_ne a [] with ha | ha
  · rw [contact_plot_none_of_empty a b c (Or.inl ha)] at h; cases h
  rcases eq_or_ne b [] with hb | hb
  · rw [contact_plot_none_of_empty a b c (Or.inr (Or.inl hb))] at h; cases h
  rcases eq_or_ne c [] with hc | hc
  · rw [contact_plot_none_of_empty a b c (Or.inr (Or.inr hc))] at h; cases h
  refine ⟨ha, hb, hc, ?_⟩
  rw [contact_plot_eq_some a b c ha hb hc] at h
  exact (Option.some_inj.mp h).symm

/-- The display points of category `k` on the success path: the forward
images followed by the mirrored images of the k-th input list. -/
theorem categoryPoints_renderOf (a b c : List (Int × Int)) (k : Fin 3) :
    categoryPoints (renderOf a b c) k =
      fwdPoints (catList a b c k) ++ revPoints (catList a b c k) := by
  fin_cases k <;>
    simp [categoryPoints, renderOf, catList, fwdPoints, revPoints, addOne,
      T_col, List.map_map, List.zip_map', Function.comp]

/-- Each category contributes exactly twice its own number of pairs. -/
theorem categoryPoints_length (a b c : List (Int × Int)) (k : Fin 3) :
    (categoryPoints (renderOf a b c) k).length =
      2 * (catList a b c k).length := by
  rw [categoryPoints_renderOf]
  simp [fwdPoints, revPoints, Nat.two_mul]

/-! ## Claim C1 (error handling on empty categories) -/

/-- C1 counterexample: with `false_positives = []` (a category with zero
entries) the call does crash: `np.array([]).T` is a 1-D empty array, so
row 0 does not exist and the coordinate construction raises `IndexError`
before anything is rendered. -/
theorem C1_cex_empty_category_crash :
    contact_plot_PF00014 [(0, 1)] [(1, 2)] [] = none := by decide

/-- C1 (amended): an empty category list does not produce an empty scatter
layer — it aborts the whole call.  The call renders nothing exactly when
some category list is empty, and succeeds whenever all three are
non-empty. -/
theorem C1_empty_category_aborts (a b c : List (Int × Int)) :
    contact_plot_PF00014 a b c = none ↔ a = [] ∨ b = [] ∨ c = [] := by
  constructor
  · intro h
    by_contra hn
    push_neg at hn
    rw [contact_plot_eq_some a b c hn.1 hn.2.1 hn.2.2] at h
    cases h
  · exact contact_plot_none_of_empty a b c

/-! ## Claim C2 (two mirrored display points per pair) -/

/-- C2 counterexample: `other_contacts = [(0, 1)]` is a non-empty category,
yet the call generates zero display points for it (not two), because the
empty `true_positives` list makes the coordinate construction raise. -/
theorem C2_cex_sibling_empty :
    contact_plot_PF00014 [(0, 1)] [] [(0, 1)] = none := by decide

/-- C2 (amended): provided all three category lists are non-empty, every
pair `(i, j)` of category `k` is shown at the two display points
`(i+1, j+1)` and `(j+1, i+1)`: the category's display points are exactly
the forward images followed by the mirrored images of its pairs, so their
number is twice the number of input pairs of that category. -/
theorem C2_mirrored_points (a b c : List (Int × Int))
    (ha : a ≠ []) (hb : b ≠ []) (hc : c ≠ []) :
    ∃ out, contact_plot_PF00014 a b c = some out ∧
      ∀ k : Fin 3,
        categoryPoints out k =
          fwdPoints (catList a b c k) ++ revPoints (catList a b c k) ∧
        (categoryPoints out k).length = 2 * (catList a b c k).length := by
  refine ⟨renderOf a b c, contact_plot_eq_some a b c ha hb hc, fun k => ?_⟩
  exact ⟨categoryPoints_renderOf a b c k, categoryPoints_length a b c k⟩

/-- C2 witness: the amended statement at a concrete input. -/
theorem C2_mirrored_points_witness :
    ∃ out, contact_plot_PF00014 [(0, 1)] [(4, 5)] [(2, 3)] = some out ∧
      ∀ k : Fin 3,
        categoryPoints out k =
          fwdPoints (catList [(0, 1)] [(4, 5)] [(2, 3)] k) ++
          revPoints (catList [(0, 1)] [(4, 5)] [(2, 3)] k) ∧
        (categoryPoints out k).length =
          2 * (catList [(0, 1)] [(4, 5)] [(2, 3)] k).length :=
  C2_mirrored_points [(0, 1)] [(4, 5)] [(2, 3)]
    (by decide) (by decide) (by decide)

/-! ## Claim C3 (concrete scenario) -/

/-- C3 counterexample: on the scenario input the call crashes (the empty
`true_positives` list aborts the coordinate construction), so the claimed
layers are never produced. -/
theorem C3_cex_scenario_crash :
    contact_plot_PF00014 [(0, 1)] [] [(2, 3)] = none := by decide

/-- C3 (amended): on the scenario input the call aborts with an
`IndexError` and renders nothing; if `true_positives` is replaced by any
non-empty list, the background layer's display points are exactly
[(1, 2), (2, 1)], the false-positive layer's exactly [(3, 4), (4, 3)], and
the legend scatter and labels are the fixed constants. -/
theorem C3_scenario (b : List (Int × Int)) (hb : b ≠ []) :
    contact_plot_PF00014 [(0, 1)] [] [(2, 3)] = none ∧
    ∃ out, contact_plot_PF00014 [(0, 1)] b [(2, 3)] = some out ∧
      categoryPoints out 0 = [(1, 2), (2, 1)] ∧
      categoryPoints out 1 = fwdPoints b ++ revPoints b ∧
      categoryPoints out 2 = [(3, 4), (4, 3)] ∧
      out.legendScatter = legendCall ∧ out.texts = legendTexts := by
  refine ⟨by decide, renderOf [(0, 1)] b [(2, 3)],
    contact_plot_eq_some [(0, 1)] b [(2, 3)] (by decide) hb (by decide),
    ?_, ?_, ?_, rfl, rfl⟩
  · rw [categoryPoints_renderOf]
    norm_num [catList, fwdPoints, revPoints]
  · rw [categoryPoints_renderOf]
    rfl
  · rw [categoryPoints_renderOf]
    norm_num [catList, fwdPoints, revPoints]

/-- C3 witness: the amended statement with `true_positives = [(4, 5)]`. -/
theorem C3_scenario_witness :
    contact_plot_PF00014 [(0, 1)] [] [(2, 3)] = none ∧
    ∃ out, contact_plot_PF00014 [(0, 1)] [(4, 5)] [(2, 3)] = some out ∧
      categoryPoints out 0 = [(1, 2), (2, 1)] ∧
      categoryPoints out 1 = fwdPoints [(4, 5)] ++ revPoints [(4, 5)] ∧
      categoryPoints out 2 = [(3, 4), (4, 3)] ∧
      out.legendScatter = legendCall ∧ out.texts = legendTexts :=
  C3_scenario [(4, 5)] (by decide)

/-! ## Claim C4 (fixed legend) -/

/-- C4 counterexample: the legend is not rendered for every input — with
all three lists empty the call aborts before the legend pass, so nothing at
all is handed to the plotting layer. -/
theorem C4_cex_no_legend_when_empty :
    contact_plot_PF00014 [] [] [] = none := by decide

/-- C4 (amended): whenever the call completes (equivalently, all three
lists are non-empty), the legend pass renders exactly three extra points at
(56, 52), (56, 48), (56, 44), colored C_CONTACT, C_TRUEPOS, C_FALSEPOS
respectively, with the three left-aligned, vertically centered labels; the
legend data is independent of the input. -/
theorem C4_legend_fixed (a b c : List (Int × Int)) (out : RenderOutput)
    (h : contact_plot_PF00014 a b c = some out) :
    out.legendScatter.x = [[56], [56], [56]] ∧
    out.legendScatter.y = [[52], [48], [44]] ∧
    out.legendScatter.props.colors = [C_CONTACT, C_TRUEPOS, C_FALSEPOS] ∧
    out.texts = [⟨57, 52, "Other contacts", "left", "center"⟩,
                 ⟨57, 48, "True positives", "left", "center"⟩,
                 ⟨57, 44, "False positives", "left", "center"⟩] := by
  obtain ⟨-, -, -, rfl⟩ := contact_plot_some_inv a b c out h
  exact ⟨rfl, rfl, rfl, rfl⟩

/-- C4 witness: the legend data at a concrete successful call. -/
theorem C4_legend_fixed_witness :
    contact_plot_PF00014 [(0, 1)] [(4, 5)] [(2, 3)] =
      some (renderOf [(0, 1)] [(4, 5)] [(2, 3)]) ∧
    ((renderOf [(0, 1)] [(4, 5)] [(2, 3)]).legendScatter.x = [[56], [56], [56]] ∧
     (renderOf [(0, 1)] [(4, 5)] [(2, 3)]).legendScatter.y = [[52], [48], [44]] ∧
     (renderOf [(0, 1)] [(4, 5)] [(2, 3)]).legendScatter.props.colors =
       [C_CONTACT, C_TRUEPOS, C_FALSEPOS] ∧
     (renderOf [(0, 1)] [(4, 5)] [(2, 3)]).texts =
       [⟨57, 52, "Other contacts", "left", "center"⟩,
        ⟨57, 48, "True positives", "left", "center"⟩,
        ⟨57, 44, "False positives", "left", "center"⟩]) :=
  ⟨by decide, C4_legend_fixed [(0, 1)] [(4, 5)] [(2, 3)] _ (by decide)⟩

/-! ## Claim C5 (invariant axes) -/

/-- C5: the styling configuration is built from constants only: x and y
limits are both [1, 55], x and y ticks are both [0, 10, 20, 30, 40, 50, 55],
and both axis labels read "PF00014 sites"; every completed call hands
exactly this configuration to the main scatter call, and the legend call
differs only in its color list. -/
theorem C5_axes_fixed :
    pprops.xlim = [1, 55] ∧ pprops.ylim = [1, 55] ∧
    pprops.xticks = [0, 10, 20, 30, 40, 50, 55] ∧
    pprops.yticks = [0, 10, 20, 30, 40, 50, 55] ∧
    pprops.xlabel = "PF00014 sites" ∧ pprops.ylabel = "PF00014 sites" ∧
    ∀ a b c out, contact_plot_PF00014 a b c = some out →
      out.mainScatter.props = pprops ∧
      out.legendScatter.props = { pprops with colors := [C_CONTACT, C_TRUEPOS, C_FALSEPOS] } := by
  refine ⟨rfl, rfl, rfl, rfl, rfl, rfl, fun a b c out h => ?_⟩
  obtain ⟨-, -, -, rfl⟩ := contact_plot_some_inv a b c out h
  exact ⟨rfl, rfl⟩

/-! ## Claim C6 (self-pairs) -/

/-- C6 counterexample: the self-pair (2, 2) is present in `other_contacts`,
yet no display point at all is emitted for it — the empty sibling lists
abort the call before the scatter call. -/
theorem C6_cex_selfpair_not_emitted :
    contact_plot_PF00014 [(2, 2)] [] [] = none := by decide

/-- C6 (amended): provided all three category lists are non-empty, a
self-pair `(i, i)` of category `k` is emitted like any other pair: its two
mirrored display points coincide at `(i+1, i+1)`, both appear (once in the
forward sub-layer, once in the mirrored one), and the category still
contributes exactly twice its number of pairs — no suppression or special
case. -/
theorem C6_selfpair_coincides (a b c : List (Int × Int))
    (ha : a ≠ []) (hb : b ≠ []) (hc : c ≠ []) (k : Fin 3) (i : Int)
    (hmem : (i, i) ∈ catList a b c k) :
    ∃ out, contact_plot_PF00014 a b c = some out ∧
      (i + 1, i + 1) ∈ fwdPoints (catList a b c k) ∧
      (i + 1, i + 1) ∈ revPoints (catList a b c k) ∧
      categoryPoints out k =
        fwdPoints (catList a b c k) ++ revPoints (catList a b c k) ∧
      (categoryPoints out k).length = 2 * (catList a b c k).length := by
  refine ⟨renderOf a b c, contact_plot_eq_some a b c ha hb hc, ?_, ?_,
    categoryPoints_renderOf a b c k, categoryPoints_length a b c k⟩
  · unfold fwdPoints
    exact List.mem_map.mpr ⟨(i, i), hmem, rfl⟩
  · unfold revPoints
    exact List.mem_map.mpr ⟨(i, i), hmem, rfl⟩

/-- C6 witness: the self-pair (2, 2) in `other_contacts` at a concrete
successful call. -/
theorem C6_selfpair_coincides_witness :
    ∃ out, contact_plot_PF00014 [(2, 2)] [(4, 5)] [(2, 3)] = some out ∧
      ((2 : Int) + 1, (2 : Int) + 1) ∈ fwdPoints (catList [(2, 2)] [(4, 5)] [(2, 3)] 0) ∧
      ((2 : Int) + 1, (2 : Int) + 1) ∈ revPoints (catList [(2, 2)] [(4, 5)] [(2, 3)] 0) ∧
      categoryPoints out 0 =
        fwdPoints (catList [(2, 2)] [(4, 5)] [(2, 3)] 0) ++
        revPoints (catList [(2, 2)] [(4, 5)] [(2, 3)] 0) ∧
      (categoryPoints out 0).length = 2 * (catList [(2, 2)] [(4, 5)] [(2, 3)] 0).length :=
  C6_selfpair_coincides [(2, 2)] [(4, 5)] [(2, 3)]
    (by decide) (by decide) (by decide) 0 2 (by decide)

/-! ## Claim C7 (draw order and no deduplication) -/

/-- C7: in the main scatter call the six coordinate sub-lists come from the
background contacts first, the true positives second and the false
positives last, and nothing is deduplicated: each sub-list is exactly the
shifted component list of its category, so every category still contributes
twice its number of pairs, duplicates and coinciding points included. -/
theorem C7_draw_order (a b c : List (Int × Int)) (out : RenderOutput)
    (h : contact_plot_PF00014 a b c = some out) :
    out.mainScatter.x =
      [addOne (a.map (T_col 0)), addOne (a.map (T_col 1)),
       addOne (b.map (T_col 0)), addOne (b.map (T_col 1)),
       addOne (c.map (T_col 0)), addOne (c.map (T_col 1))] ∧
    out.mainScatter.y =
      [addOne (a.map (T_col 1)), addOne (a.map (T_col 0)),
       addOne (b.map (T_col 1)), addOne (b.map (T_col 0)),
       addOne (c.map (T_col 1)), addOne (c.map (T_col 0))] ∧
    ∀ k : Fin 3, (categoryPoints out k).length = 2 * (catList a b c k).length := by
  obtain ⟨-, -, -, rfl⟩ := contact_plot_some_inv a b c out h
  exact ⟨rfl, rfl, fun k => categoryPoints_length a b c k⟩

/-- C7 witness: a concrete call whose background category holds the same
pair twice; both copies survive into the sub-lists. -/
theorem C7_draw_order_witness :
    contact_plot_PF00014 [(0, 1), (0, 1)] [(4, 5)] [(2, 3)] =
      some (renderOf [(0, 1), (0, 1)] [(4, 5)] [(2, 3)]) ∧
    ((renderOf [(0, 1), (0, 1)] [(4, 5)] [(2, 3)]).mainScatter.x =
      [addOne (([(0, 1), (0, 1)] : List (Int × Int)).map (T_col 0)),
       addOne (([(0, 1), (0, 1)] : List (Int × Int)).map (T_col 1)),
       addOne (([(4, 5)] : List (Int × Int)).map (T_col 0)),
       addOne (([(4, 5)] : List (Int × Int)).map (T_col 1)),
       addOne (([(2, 3)] : List (Int × Int)).map (T_col 0)),
       addOne (([(2, 3)] : List (Int × Int)).map (T_col 1))] ∧
     (renderOf [(0, 1), (0, 1)] [(4, 5)] [(2, 3)]).mainScatter.y =
      [addOne (([(0, 1), (0, 1)] : List (Int × Int)).map (T_col 1)),
       addOne (([(0, 1), (0, 1)] : List (Int × Int)).map (T_col 0)),
       addOne (([(4, 5)] : List (Int × Int)).map (T_col 1)),
       addOne (([(4, 5)] : List (Int × Int)).map (T_col 0)),
       addOne (([(2, 3)] : List (Int × Int)).map (T_col 1)),
       addOne (([(2, 3)] : List (Int × Int)).map (T_col 0))] ∧
     ∀ k : Fin 3,
       (categoryPoints (renderOf [(0, 1), (0, 1)] [(4, 5)] [(2, 3)]) k).length =
         2 * (catList [(0, 1), (0, 1)] [(4, 5)] [(2, 3)] k).length) :=
  ⟨by decide, C7_draw_order [(0, 1), (0, 1)] [(4, 5)] [(2, 3)] _ (by decide)⟩

/-! ## Claim C8 (six sub-lists, paired colors) -/

/-- C8: the main scatter call receives exactly six x sub-lists, six y
sub-lists and six colors, and the colors at positions 2k and 2k+1 both
equal category k's color, the sub-lists at those positions being the two
mirrored halves of category k. -/
theorem C8_six_layers (a b c : List (Int × Int)) (out : RenderOutput)
    (h : contact_plot_PF00014 a b c = some out) :
    out.mainScatter.x.length = 6 ∧ out.mainScatter.y.length = 6 ∧
    out.mainScatter.props.colors.length = 6 ∧
    ∀ k : Fin 3,
      out.mainScatter.props.colors.getD (2 * k.val) "" = catColor k ∧
      out.mainScatter.props.colors.getD (2 * k.val + 1) "" = catColor k ∧
      out.mainScatter.x.getD (2 * k.val) [] =
        addOne ((catList a b c k).map (T_col 0)) ∧
      out.mainScatter.x.getD (2 * k.val + 1) [] =
        addOne ((catList a b c k).map (T_col 1)) := by
  obtain ⟨-, -, -, rfl⟩ := contact_plot_some_inv a b c out h
  refine ⟨rfl, rfl, rfl, fun k => ?_⟩
  fin_cases k <;> exact ⟨rfl, rfl, rfl, rfl⟩

/-- C8 witness: the six sub-lists and paired colors at a concrete call. -/
theorem C8_six_layers_witness :
    contact_plot_PF00014 [(0, 1)] [(4, 5)] [(2, 3)] =
      some (renderOf [(0, 1)] [(4, 5)] [(2, 3)]) ∧
    ((renderOf [(0, 1)] [(4, 5)] [(2, 3)]).mainScatter.x.length = 6 ∧
     (renderOf [(0, 1)] [(4, 5)] [(2, 3)]).mainScatter.y.length = 6 ∧
     (renderOf [(0, 1)] [(4, 5)] [(2, 3)]).mainScatter.props.colors.length = 6 ∧
     ∀ k : Fin 3,
       (renderOf [(0, 1)] [(4, 5)] [(2, 3)]).mainScatter.props.colors.getD (2 * k.val) "" =
         catColor k ∧
       (renderOf [(0, 1)] [(4, 5)] [(2, 3)]).mainScatter.props.colors.getD (2 * k.val + 1) "" =
         catColor k ∧
       (renderOf [(0, 1)] [(4, 5)] [(2, 3)]).mainScatter.x.getD (2 * k.val) [] =
         addOne ((catList [(0, 1)] [(4, 5)] [(2, 3)] k).map (T_col 0)) ∧
       (renderOf [(0, 1)] [(4, 5)] [(2, 3)]).mainScatter.x.getD (2 * k.val + 1) [] =
         addOne ((catList [(0, 1)] [(4, 5)] [(2, 3)] k).map (T_col 1))) :=
  ⟨by decide, C8_six_layers [(0, 1)] [(4, 5)] [(2, 3)] _ (by decide)⟩

/-! ## Claims C9 and C10 (frame and determinism) -/

/-- The caller-visible effect of one Python call.  Python passes the three
list objects by reference; the body reads them exactly once each, at the
`np.array` copies of lines 29-31, and performs no element assignment,
slice assignment or mutating method call on them (the only mutation in the
function, `pprops['colors'] = ...` at line 38, targets the local styling
dictionary).  So the list objects the caller sees after the call hold the
same elements as at entry, recorded here alongside the render output. -/
structure CallEffect where
  output : Option RenderOutput
  other_contacts_after : List (Int × Int)
  true_positives_after : List (Int × Int)
  false_positives_after : List (Int × Int)
deriving DecidableEq, Repr

/-- One call of `contact_plot_PF00014` together with the state of the three
argument lists after it returns (or raises). -/
def contact_plot_PF00014_call (a b c : List (Int × Int)) : CallEffect :=
  { output := contact_plot_PF00014 a b c
  , other_contacts_after := a
  , true_positives_after := b
  , false_positives_after := c }

/-- C9: the call never mutates its three input sequences — after any call,
crashing or not, each argument list is element-for-element what it was
before the call; the `+1` shift and the mirroring act only on the fresh
numpy arrays. -/
theorem C9_inputs_unchanged (a b c : List (Int × Int)) :
    (contact_plot_PF00014_call a b c).other_contacts_after = a ∧
    (contact_plot_PF00014_call a b c).true_positives_after = b ∧
    (contact_plot_PF00014_call a b c).false_positives_after = c :=
  ⟨rfl, rfl, rfl⟩

/-- C10: the call is deterministic in its plotted data — two calls on
element-for-element equal input lists make identical calls to the plotting
layer (same coordinate sub-lists, colors, styling options, legend points
and label texts), and leave identical caller-visible state. -/
theorem C10_deterministic (a b c a' b' c' : List (Int × Int))
    (ha : List.Forall₂ (fun p q => p = q) a a')
    (hb : List.Forall₂ (fun p q => p = q) b b')
    (hc : List.Forall₂ (fun p q => p = q) c c') :
    contact_plot_PF00014_call a b c = contact_plot_PF00014_call a' b' c' := by
  rw [List.forall₂_eq_eq_eq] at ha hb hc
  rw [ha, hb, hc]

/-- C10 witness: two textually distinct but element-for-element equal
argument triples. -/
theorem C10_deterministic_witness :
    contact_plot_PF00014_call [(0, 1)] [(4, 5)] [(2, 3)] =
      contact_plot_PF00014_call [(0 + 0, 1)] [(4, 5 + 0)] [(2, 3)] :=
  C10_deterministic [(0, 1)] [(4, 5)] [(2, 3)] [(0 + 0, 1)] [(4, 5 + 0)] [(2, 3)]
    (by decide) (by decide) (by decide)
